import Mathlib

/-!
Verification of the production-chain calculator (goods, recipes, buildings,
modifiers, and the recursive chain resolver).

The Python dictionaries are modelled as insertion-ordered association lists,
floating-point numbers as rationals, and the recursive resolver as a
fuel-indexed function (fuel exhaustion, `none`, models non-termination of the
unbounded recursion).
-/

namespace Anno

/-- Insertion-ordered association list standing for a Python dict. -/
abbrev Dict (α : Type) := List (String × α)

/-- Python assignment d[k] = v: overwrite in place at an existing key,
otherwise append at the end. -/
def dinsert {α : Type} (k : String) (v : α) : Dict α → Dict α
  | [] => [(k, v)]
  | p :: rest => if p.1 = k then (k, v) :: rest else p :: dinsert k v rest

/-- Python d.get(k): the value stored at the first occurrence of key k. -/
def dget {α : Type} (k : String) (d : Dict α) : Option α :=
  (d.find? (fun p => p.1 == k)).map Prod.snd

/-- Python d.get(k, v0). -/
def dgetD {α : Type} (k : String) (v₀ : α) (d : Dict α) : α :=
  (dget k d).getD v₀

/-- The keys of a dict, in insertion order. -/
def dkeys {α : Type} (d : Dict α) : List String := d.map Prod.fst

/-- Python d.pop(k): the dict with the first entry keyed k removed. -/
def dremove {α : Type} (k : String) : Dict α → Dict α
  | [] => []
  | p :: rest => if p.1 = k then rest else p :: dremove k rest

/-- good.py: a commodity, raw or manufactured. -/
structure Good where
  name : String
  is_raw : Bool
deriving Repr, DecidableEq

/-- recipe.py: a transformation of goods with rates in tons per minute. -/
structure Recipe where
  inputs : Dict ℚ
  outputs : Dict ℚ
deriving Repr, DecidableEq

/-- recipe.py get_input_rate. -/
def Recipe.get_input_rate (r : Recipe) (good_name : String) : ℚ :=
  dgetD good_name 0 r.inputs

/-- recipe.py get_output_rate. -/
def Recipe.get_output_rate (r : Recipe) (good_name : String) : ℚ :=
  dgetD good_name 0 r.outputs

/-- modifier.py: one effect dictionary. Missing keys are modelled by the
default values that the Python dict.get calls supply. -/
structure Effect where
  type : String
  value : ℚ := 0
  original_good : String := ""
  new_good : String := ""
  good : String := ""
  amount_per_cycle : ℤ := 0
deriving Repr, DecidableEq

/-- modifier.py: a named bundle of effects with target tags. -/
structure Modifier where
  name : String
  target_tags : List String
  effects : List Effect
deriving Repr, DecidableEq

/-- modifier.py can_apply_to: some target tag occurs among the building tags. -/
def Modifier.can_apply_to (m : Modifier) (building_tags : List String) : Bool :=
  m.target_tags.any (fun tag => building_tags.contains tag)

/-- modifier.py get_productivity_bonus: sum of the PRODUCTIVITY values. -/
def Modifier.get_productivity_bonus (m : Modifier) : ℚ :=
  m.effects.foldl
    (fun total_bonus e =>
      if e.type = "PRODUCTIVITY" then total_bonus + e.value else total_bonus) 0

/-- modifier.py get_input_replacements: dict from original to new good names,
keeping only effects whose two good names are non-empty strings. -/
def Modifier.get_input_replacements (m : Modifier) : Dict String :=
  m.effects.foldl
    (fun replacements e =>
      if e.type = "REPLACE_INPUT" ∧ e.original_good ≠ "" ∧ e.new_good ≠ "" then
        dinsert e.original_good e.new_good replacements
      else replacements) []

/-- modifier.py get_extra_outputs: dict from good name to amount per cycle,
keeping only effects with a non-empty good name and a positive amount;
a later effect for the same good overwrites the earlier entry. -/
def Modifier.get_extra_outputs (m : Modifier) : Dict ℤ :=
  m.effects.foldl
    (fun extra_outputs e =>
      if e.type = "EXTRA_OUTPUT" ∧ e.good ≠ "" ∧ 0 < e.amount_per_cycle then
        dinsert e.good e.amount_per_cycle extra_outputs
      else extra_outputs) []

/-- modifier.py get_workforce_reduction: sum of the WORKFORCE_REDUCTION values. -/
def Modifier.get_workforce_reduction (m : Modifier) : ℚ :=
  m.effects.foldl
    (fun total_reduction e =>
      if e.type = "WORKFORCE_REDUCTION" then total_reduction + e.value
      else total_reduction) 0

/-- production_building.py: a production building type. -/
structure ProductionBuilding where
  name : String
  base_recipe : Recipe
  cycle_time_seconds : ℤ
  tags : List String
  is_electrifiable : Bool
  workforce : ℤ
  workforce_type : String
  locations : List String
deriving Repr, DecidableEq

/-- production_building.py get_base_output_rate. -/
def ProductionBuilding.get_base_output_rate (b : ProductionBuilding) (good_name : String) : ℚ :=
  b.base_recipe.get_output_rate good_name

/-- production_building.py get_base_input_rate. -/
def ProductionBuilding.get_base_input_rate (b : ProductionBuilding) (good_name : String) : ℚ :=
  b.base_recipe.get_input_rate good_name

/-- production_building.py get_cycles_per_minute: 60 / cycle_time_seconds,
with the non-positive cycle-time guard returning 0. -/
def ProductionBuilding.get_cycles_per_minute (b : ProductionBuilding) : ℚ :=
  if b.cycle_time_seconds ≤ 0 then 0 else 60 / (b.cycle_time_seconds : ℚ)

/-- production_building.py get_base_workforce. -/
def ProductionBuilding.get_base_workforce (b : ProductionBuilding) : ℤ := b.workforce

/-- system_calculator.py: the registry of goods, recipes, buildings, modifiers. -/
structure SystemCalculator where
  all_goods : Dict Good := []
  all_recipes : Dict Recipe := []
  all_buildings : Dict ProductionBuilding := []
  all_modifiers : List Modifier := []
deriving Repr, DecidableEq

/-- system_calculator.py add_good. -/
def add_good (s : SystemCalculator) (good : Good) : SystemCalculator :=
  { s with all_goods := dinsert good.name good s.all_goods }

/-- system_calculator.py add_building. -/
def add_building (s : SystemCalculator) (building : ProductionBuilding) : SystemCalculator :=
  { s with all_buildings := dinsert building.name building s.all_buildings }

/-- system_calculator.py add_modifier (append, preserving registration order). -/
def add_modifier (s : SystemCalculator) (modifier : Modifier) : SystemCalculator :=
  { s with all_modifiers := s.all_modifiers ++ [modifier] }

/-- system_calculator.py find_best_modifiers_for: the placeholder selection
policy over the compatible modifiers. -/
def find_best_modifiers_for (s : SystemCalculator) (building : ProductionBuilding) :
    List Modifier :=
  let compatible_modifiers :=
    s.all_modifiers.filter (fun m => m.can_apply_to building.tags)
  let best_modifiers :=
    if building.tags.contains "Old World" then
      match compatible_modifiers.find? (fun m => m.name == "Master Baker") with
      | some master_baker => [master_baker]
      | none => []
    else
      match compatible_modifiers.find? (fun m => m.name == "Electricity") with
      | some electricity_modifier =>
        if building.is_electrifiable then [electricity_modifier] else []
      | none => []
  if best_modifiers.isEmpty then
    match compatible_modifiers.find? (fun m => m.name == "Automation") with
    | some automation_modifier => best_modifiers ++ [automation_modifier]
    | none => best_modifiers
  else best_modifiers

/-- Python int(): truncation of a rational toward zero. -/
def int_trunc (q : ℚ) : ℤ := if q < 0 then ⌈q⌉ else ⌊q⌋

/-- system_calculator.py apply_modifiers, input-replacement step for one
replacement pair: pop the original good and store its rate under the new one. -/
def apply_input_replacement (modified_inputs : Dict ℚ) (p : String × String) : Dict ℚ :=
  match dget p.1 modified_inputs with
  | some rate => dinsert p.2 rate (dremove p.1 modified_inputs)
  | none => modified_inputs

/-- system_calculator.py apply_modifiers, extra-output step for one entry of
get_extra_outputs: add amount_per_cycle * cycles_per_minute / 60 to the
entry of that good, creating it if absent. -/
def apply_extra_output (building : ProductionBuilding) (modified_outputs : Dict ℚ)
    (p : String × ℤ) : Dict ℚ :=
  dinsert p.1
    (dgetD p.1 0 modified_outputs + ((p.2 : ℚ) * building.get_cycles_per_minute) / 60)
    modified_outputs

/-- system_calculator.py apply_modifiers, loop body for one modifier over the
state (modified_inputs, modified_outputs, total_productivity, modified_workforce). -/
def apply_one_modifier (building : ProductionBuilding)
    (st : Dict ℚ × Dict ℚ × ℚ × ℤ) (m : Modifier) : Dict ℚ × Dict ℚ × ℚ × ℤ :=
  let total_productivity := st.2.2.1 + m.get_productivity_bonus
  let modified_workforce :=
    int_trunc ((st.2.2.2 : ℚ) * (1 - m.get_workforce_reduction))
  let modified_inputs :=
    m.get_input_replacements.foldl apply_input_replacement st.1
  let modified_outputs :=
    m.get_extra_outputs.foldl (apply_extra_output building) st.2.1
  (modified_inputs, modified_outputs, total_productivity, modified_workforce)

/-- system_calculator.py apply_modifiers: fold the modifiers over the base
state, then scale both maps by the final productivity. -/
def apply_modifiers (building : ProductionBuilding) (modifiers : List Modifier) :
    Recipe × ℚ × ℤ :=
  let st := modifiers.foldl (apply_one_modifier building)
    (building.base_recipe.inputs, building.base_recipe.outputs, 1, building.get_base_workforce)
  (⟨st.1.map (fun p => (p.1, p.2 * st.2.2.1)),
    st.2.1.map (fun p => (p.1, p.2 * st.2.2.1))⟩, st.2.2.1, st.2.2.2)

/-- system_calculator.py find_building_for_good: first registered building
whose base recipe outputs the good at a positive rate. -/
def find_building_for_good (s : SystemCalculator) (good_name : String) :
    Option ProductionBuilding :=
  (s.all_buildings.find? (fun p => decide (0 < p.2.get_base_output_rate good_name))).map
    Prod.snd

/-- system_calculator.py calculate_production_chain, mode-dependent choice of
(recipe, productivity, workforce, applied modifiers). -/
def production_params (s : SystemCalculator) (building : ProductionBuilding)
    (optimized : Bool) : Recipe × ℚ × ℤ × List Modifier :=
  if optimized then
    let best_modifiers := find_best_modifiers_for s building
    let r := apply_modifiers building best_modifiers
    (r.1, r.2.1, r.2.2, best_modifiers)
  else
    (building.base_recipe, 1, building.get_base_workforce, [])

/-- system_calculator.py: one node of the returned production tree, mirroring
the three dictionary shapes the code returns. -/
inductive ChainNode where
  | error (msg : String)
  | raw (good_name : String) (target_rate : ℚ) (building_count : ℚ)
      (productivity : ℚ) (modifiers : List String)
      (inputs : List (String × ℚ)) (sub_chains : List (String × ChainNode))
  | node (good_name : String) (target_rate : ℚ) (building_name : String)
      (building_count : ℚ) (productivity : ℚ) (workforce_per_building : ℤ)
      (workforce_type : String) (total_workforce : ℚ)
      (building_locations : List String) (modifiers : List String)
      (recipe : Recipe) (inputs : List (String × ℚ))
      (sub_chains : List (String × ChainNode))

/-- The recursive sub-chain loop: run the resolver on each required input and
collect the results in order; none propagates only fuel exhaustion. -/
def calculate_sub_chains (f : String → ℚ → Option ChainNode) :
    List (String × ℚ) → Option (List (String × ChainNode))
  | [] => some []
  | p :: rest =>
    match f p.1 p.2, calculate_sub_chains f rest with
    | some c, some cs => some ((p.1, c) :: cs)
    | _, _ => none

/-- system_calculator.py calculate_production_chain, with a fuel parameter
making the unbounded recursion well-defined: none means the recursion did not
terminate within the given depth. -/
def calculate_production_chain (s : SystemCalculator) (optimized : Bool) :
    Nat → String → ℚ → Option ChainNode
  | 0, _, _ => none
  | fuel+1, target_good, target_rate =>
    match dget target_good s.all_goods with
    | none => some (.error ("Good " ++ target_good ++ " not found in system"))
    | some good =>
      if good.is_raw then
        some (.raw target_good target_rate 0 1 [] [] [])
      else
        match find_building_for_good s target_good with
        | none => some (.error ("No building found to produce " ++ target_good))
        | some building =>
          let params := production_params s building optimized
          let output_rate := params.1.get_output_rate target_good
          if output_rate ≤ 0 then
            some (.error ("Building " ++ building.name ++ " does not produce " ++ target_good))
          else
            let building_count := target_rate / output_rate
            let required_inputs :=
              params.1.inputs.map (fun p => (p.1, p.2 * building_count))
            match calculate_sub_chains
                (fun g r => calculate_production_chain s optimized fuel g r)
                required_inputs with
            | none => none
            | some sub_chains =>
              some (.node target_good target_rate building.name building_count
                params.2.1 params.2.2.1 building.workforce_type
                ((params.2.2.1 : ℚ) * building_count) building.locations
                (params.2.2.2.map (fun m => m.name)) params.1 required_inputs sub_chains)

/-- The sub_chains field of a node (empty for error nodes). -/
def sub_chains_of : ChainNode → List (String × ChainNode)
  | .error _ => []
  | .raw _ _ _ _ _ _ sub_chains => sub_chains
  | .node _ _ _ _ _ _ _ _ _ _ _ _ sub_chains => sub_chains

/-- Occurrence of a node somewhere inside a production tree, following
sub_chains edges. -/
inductive InTree : ChainNode → ChainNode → Prop where
  | refl (c : ChainNode) : InTree c c
  | step {g : String} {c d e : ChainNode} :
      (g, d) ∈ sub_chains_of c → InTree e d → InTree e c

/-- The base-mode per-node invariant: productivity 1, no applied modifiers,
and for production nodes the workforce of the producing building. -/
def base_node_ok (s : SystemCalculator) : ChainNode → Prop
  | .error _ => True
  | .raw _ _ _ productivity modifiers _ _ => productivity = 1 ∧ modifiers = []
  | .node good_name _ building_name _ productivity workforce_per_building
      _ _ _ modifiers _ _ _ =>
    productivity = 1 ∧ modifiers = [] ∧
    ∃ b, find_building_for_good s good_name = some b ∧ building_name = b.name ∧
      workforce_per_building = b.get_base_workforce

/-- The required-input list a non-raw resolution step hands to its recursive
sub-chain calls: each input rate of the effective recipe scaled by the
facility count. -/
def scaled_inputs (s : SystemCalculator) (building : ProductionBuilding)
    (optimized : Bool) (target_good : String) (target_rate : ℚ) :
    List (String × ℚ) :=
  (production_params s building optimized).1.inputs.map
    (fun p => (p.1, p.2 *
      (target_rate / (production_params s building optimized).1.get_output_rate target_good)))

/-- The standalone workforce fold performed by apply_modifiers: truncate to an
integer after each modifier. -/
def workforce_fold (w₀ : ℤ) (modifiers : List Modifier) : ℤ :=
  modifiers.foldl
    (fun w m => int_trunc ((w : ℚ) * (1 - m.get_workforce_reduction))) w₀

/-- Modelled from the claim wording (refinement comparison): the per-good sum
of amount_per_cycle over all ExtraOutput effects naming that good. -/
def spec_extra_output_sum (m : Modifier) (g : String) : ℤ :=
  ((m.effects.filter (fun e => e.type == "EXTRA_OUTPUT" && e.good == g)).map
    Effect.amount_per_cycle).sum

/-- Modelled from the claim wording (refinement comparison): floor, rather
than truncation toward zero, after each modifier. -/
def spec_floor_workforce_fold (w₀ : ℤ) (modifiers : List Modifier) : ℤ :=
  modifiers.foldl
    (fun w m => ⌊(w : ℚ) * (1 - m.get_workforce_reduction)⌋) w₀

/-- Modelled from the claim wording (refinement comparison): the fixed-priority
selection policy as the claim states it. -/
def spec_selection_policy (s : SystemCalculator) (building : ProductionBuilding) :
    List Modifier :=
  let compat := s.all_modifiers.filter (fun m => m.can_apply_to building.tags)
  let primary :=
    if building.tags.contains "Old World" then
      (compat.find? (fun m => m.name == "Master Baker")).toList
    else if building.is_electrifiable then
      (compat.find? (fun m => m.name == "Electricity")).toList
    else []
  if primary = [] then (compat.find? (fun m => m.name == "Automation")).toList
  else primary

/-- A system with nothing registered. -/
def empty_system : SystemCalculator := {}

/-- A non-raw good that will sit on a recipe cycle. -/
def goodA : Good := { name := "A", is_raw := false }

/-- A building whose recipe consumes the very good it produces. -/
def millA : ProductionBuilding :=
  { name := "Mill A"
    base_recipe := { inputs := [("A", 1)], outputs := [("A", 1)] }
    cycle_time_seconds := 30
    tags := ["Production"]
    is_electrifiable := false
    workforce := 10
    workforce_type := "Workers"
    locations := ["Old World"] }

/-- A catalog whose recipe graph has a cycle reachable from good A. -/
def cyclic_system : SystemCalculator :=
  add_building (add_good empty_system goodA) millA

/-- A non-raw good produced from an unregistered input. -/
def goodB : Good := { name := "B", is_raw := false }

/-- A building producing B from the unregistered good C. -/
def workshopB : ProductionBuilding :=
  { name := "Workshop"
    base_recipe := { inputs := [("C", 1)], outputs := [("B", 1)] }
    cycle_time_seconds := 30
    tags := ["Production"]
    is_electrifiable := false
    workforce := 10
    workforce_type := "Workers"
    locations := ["Old World"] }

/-- A catalog where resolving B succeeds while its input C fails. -/
def demo_system : SystemCalculator :=
  add_building (add_good empty_system goodB) workshopB

/-- The tree returned for B at rate 1 in base mode on demo_system: the parent
node is assembled normally and the failing input is an error leaf. -/
def demo_node : ChainNode :=
  .node "B" 1 "Workshop" (1 / 1) 1 10 "Workers" (((10 : ℤ) : ℚ) * (1 / 1))
    ["Old World"] [] workshopB.base_recipe [("C", 1 * (1 / 1))]
    [("C", .error ("Good " ++ "C" ++ " not found in system"))]

/-- A building with a zero cycle time (outside the documented precondition). -/
def stalled_mill : ProductionBuilding :=
  { name := "Stalled Mill"
    base_recipe := { inputs := [], outputs := [("A", 1)] }
    cycle_time_seconds := 0
    tags := ["Production"]
    is_electrifiable := false
    workforce := 5
    workforce_type := "Workers"
    locations := ["Old World"] }

/-- A modifier with two ExtraOutput effects naming the same good. -/
def double_output_modifier : Modifier :=
  { name := "Excess"
    target_tags := ["Production"]
    effects :=
      [{ type := "EXTRA_OUTPUT", good := "X", amount_per_cycle := 1 },
       { type := "EXTRA_OUTPUT", good := "X", amount_per_cycle := 2 }] }

/-- A modifier whose workforce-reduction fractions sum to more than 1. -/
def heavy_reduction : Modifier :=
  { name := "Strict Rationing"
    target_tags := ["Production"]
    effects := [{ type := "WORKFORCE_REDUCTION", value := 3 / 2 }] }

/-- A building with a small crew, for the workforce counterexample. -/
def triple_crew : ProductionBuilding :=
  { name := "Hut"
    base_recipe := { inputs := [], outputs := [("A", 1)] }
    cycle_time_seconds := 30
    tags := ["Production"]
    is_electrifiable := false
    workforce := 3
    workforce_type := "Workers"
    locations := ["Old World"] }

/-- First registered producer candidate (does not produce B). -/
def old_mill : ProductionBuilding :=
  { name := "Old Mill"
    base_recipe := { inputs := [], outputs := [("A", 1)] }
    cycle_time_seconds := 30
    tags := ["Production"]
    is_electrifiable := false
    workforce := 10
    workforce_type := "Workers"
    locations := ["Old World"] }

/-- Second registered producer candidate (produces B). -/
def sawmill : ProductionBuilding :=
  { name := "Sawmill"
    base_recipe := { inputs := [], outputs := [("B", 1)] }
    cycle_time_seconds := 30
    tags := ["Production"]
    is_electrifiable := false
    workforce := 10
    workforce_type := "Workers"
    locations := ["New World"] }

/-- A catalog with two registered buildings, for the registry claims. -/
def registry_system : SystemCalculator :=
  add_building (add_building empty_system old_mill) sawmill

/-- A re-registration of Old Mill under the same name. -/
def old_mill_v2 : ProductionBuilding :=
  { old_mill with workforce := 20 }

theorem dget_cons {α : Type} (k : String) (p : String × α) (d : Dict α) :
    dget k (p :: d) = if p.1 = k then some p.2 else dget k d := by
  by_cases h : p.1 = k <;> simp [dget, List.find?_cons, h]

theorem dget_dinsert_self {α : Type} (k : String) (v : α) (d : Dict α) :
    dget k (dinsert k v d) = some v := by
  induction d with
  | nil => simp [dinsert, dget, List.find?_cons]
  | cons p rest ih =>
    by_cases h : p.1 = k
    · simp [dinsert, h, dget_cons]
    · simp [dinsert, h, dget_cons, ih]

theorem dget_dinsert_ne {α : Type} (k k' : String) (v : α) (d : Dict α)
    (h : k' ≠ k) : dget k (dinsert k' v d) = dget k d := by
  induction d with
  | nil => simp [dinsert, dget, List.find?_cons, h]
  | cons p rest ih =>
    by_cases hp : p.1 = k'
    · simp [dinsert, hp, dget_cons, h, hp ▸ h]
    · simp only [dinsert, if_neg hp, dget_cons, ih]

theorem dkeys_dinsert {α : Type} (k : String) (v : α) (d : Dict α) :
    dkeys (dinsert k v d) = if k ∈ dkeys d then dkeys d else dkeys d ++ [k] := by
  induction d with
  | nil => simp [dinsert, dkeys]
  | cons p rest ih =>
    by_cases h : p.1 = k
    · simp [dinsert, h, dkeys]
    · simp only [dinsert, if_neg h, dkeys, List.map_cons] at ih ⊢
      by_cases hm : k ∈ List.map Prod.fst rest
      · simp [hm, ih, Ne.symm h]
      · simp [hm, ih, Ne.symm h]

theorem dkeys_dinsert_nodup {α : Type} (k : String) (v : α) (d : Dict α)
    (h : (dkeys d).Nodup) : (dkeys (dinsert k v d)).Nodup := by
  rw [dkeys_dinsert]
  by_cases hm : k ∈ dkeys d
  · simpa [hm] using h
  · have hdisj : List.Disjoint (dkeys d) [k] :=
      fun a ha hak => hm ((List.mem_singleton.mp hak) ▸ ha)
    simpa [hm] using List.Nodup.append h (List.nodup_singleton k) hdisj

theorem foldl_add_if_eq_sum (tname : String) (l : List Effect) :
    ∀ init : ℚ,
      l.foldl (fun acc e => if e.type = tname then acc + e.value else acc) init
        = init + ((l.filter (fun e => e.type = tname)).map Effect.value).sum := by
  induction l with
  | nil => intro init; simp
  | cons e rest ih =>
    intro init
    by_cases h : e.type = tname
    · simp [List.foldl_cons, List.filter_cons, h, ih, add_assoc]
    · simp [List.foldl_cons, List.filter_cons, h, ih]

theorem extra_outputs_foldl_dget (g : String) (hg : g ≠ "") (l : List Effect) :
    ∀ acc : Dict ℤ,
      dget g (l.foldl (fun extra_outputs e =>
          if e.type = "EXTRA_OUTPUT" ∧ e.good ≠ "" ∧ 0 < e.amount_per_cycle then
            dinsert e.good e.amount_per_cycle extra_outputs
          else extra_outputs) acc)
        = match l.reverse.find?
            (fun e => e.type = "EXTRA_OUTPUT" ∧ e.good = g ∧ 0 < e.amount_per_cycle) with
          | some e => some e.amount_per_cycle
          | none => dget g acc := by
  induction l with
  | nil => intro acc; simp
  | cons e rest ih =>
    intro acc
    simp only [List.foldl_cons, List.reverse_cons, List.find?_append, ih]
    cases hfind : rest.reverse.find?
        (fun e => decide (e.type = "EXTRA_OUTPUT" ∧ e.good = g ∧ 0 < e.amount_per_cycle)) with
    | some e' => simp
    | none =>
      simp only [Option.none_orElse]
      by_cases hp : e.type = "EXTRA_OUTPUT" ∧ e.good = g ∧ 0 < e.amount_per_cycle
      · have hins : e.type = "EXTRA_OUTPUT" ∧ e.good ≠ "" ∧ 0 < e.amount_per_cycle :=
          ⟨hp.1, hp.2.1 ▸ hg, hp.2.2⟩
        simp [List.find?_cons, hp, hins, hp.2.1, hg, dget_dinsert_self]
      · simp only [List.find?_cons, List.find?_nil]
        have : (decide (e.type = "EXTRA_OUTPUT" ∧ e.good = g ∧ 0 < e.amount_per_cycle)) = false := by
          simpa using hp
        rw [this]
        by_cases hins : e.type = "EXTRA_OUTPUT" ∧ e.good ≠ "" ∧ 0 < e.amount_per_cycle
        · have hne : e.good ≠ g := by
            intro hgg
            exact hp ⟨hins.1, hgg, hins.2.2⟩
          simp [hins, dget_dinsert_ne _ _ _ _ hne]
        · simp [hins]

theorem calculate_sub_chains_forall₂ (f : String → ℚ → Option ChainNode) :
    ∀ (l : List (String × ℚ)) (out : List (String × ChainNode)),
      calculate_sub_chains f l = some out →
      List.Forall₂ (fun p q => q.1 = p.1 ∧ f p.1 p.2 = some q.2) l out := by
  intro l
  induction l with
  | nil =>
    intro out h
    simp only [calculate_sub_chains, Option.some.injEq] at h
    exact h ▸ List.Forall₂.nil
  | cons p rest ih =>
    intro out h
    simp only [calculate_sub_chains] at h
    cases hf : f p.1 p.2 with
    | none => rw [hf] at h; simp at h
    | some c =>
      cases hr : calculate_sub_chains f rest with
      | none => rw [hf, hr] at h; simp at h
      | some cs =>
        rw [hf, hr] at h
        simp only [Option.some.injEq] at h
        exact h ▸ List.Forall₂.cons ⟨rfl, hf⟩ (ih cs hr)

theorem calculate_sub_chains_total (f : String → ℚ → Option ChainNode) :
    ∀ l : List (String × ℚ), (∀ p ∈ l, ∃ c, f p.1 p.2 = some c) →
      ∃ out, calculate_sub_chains f l = some out := by
  intro l
  induction l with
  | nil => intro _; exact ⟨[], rfl⟩
  | cons p rest ih =>
    intro h
    obtain ⟨c, hc⟩ := h p (List.mem_cons_self p rest)
    obtain ⟨cs, hcs⟩ := ih (fun q hq => h q (List.mem_cons_of_mem p hq))
    exact ⟨(p.1, c) :: cs, by simp [calculate_sub_chains, hc, hcs]⟩

theorem calculate_sub_chains_mem (f : String → ℚ → Option ChainNode) :
    ∀ (l : List (String × ℚ)) (out : List (String × ChainNode)),
      calculate_sub_chains f l = some out →
      ∀ g c, (g, c) ∈ out → ∃ r, (g, r) ∈ l ∧ f g r = some c := by
  intro l
  induction l with
  | nil =>
    intro out h g c hm
    simp only [calculate_sub_chains, Option.some.injEq] at h
    rw [← h] at hm
    simp at hm
  | cons p rest ih =>
    intro out h g c hm
    simp only [calculate_sub_chains] at h
    cases hf : f p.1 p.2 with
    | none => rw [hf] at h; simp at h
    | some c₀ =>
      cases hr : calculate_sub_chains f rest with
      | none => rw [hf, hr] at h; simp at h
      | some cs =>
        rw [hf, hr] at h
        simp only [Option.some.injEq] at h
        rw [← h] at hm
        rcases List.mem_cons.mp hm with heq | hmem
        · have hg2 : g = p.1 := congrArg Prod.fst heq
          have hc2 : c = c₀ := congrArg Prod.snd heq
          subst hg2
          subst hc2
          exact ⟨p.2, by simp, hf⟩
        · obtain ⟨r, hrl, hfr⟩ := ih cs hr g c hmem
          exact ⟨r, List.mem_cons_of_mem p hrl, hfr⟩

theorem calc_node_inversion
    (s : SystemCalculator) (optimized : Bool) (fuel : Nat) (g : String) (r : ℚ)
    (gn : String) (tr : ℚ) (bn : String) (cnt pr : ℚ) (wf : ℤ)
    (wt : String) (tw : ℚ) (locs mods : List String) (rcp : Recipe)
    (ins : List (String × ℚ)) (subs : List (String × ChainNode))
    (h : calculate_production_chain s optimized (fuel+1) g r
      = some (.node gn tr bn cnt pr wf wt tw locs mods rcp ins subs)) :
    gn = g ∧ tr = r ∧
    ∃ good building,
      dget g s.all_goods = some good ∧ good.is_raw = false ∧
      find_building_for_good s g = some building ∧
      bn = building.name ∧ wt = building.workforce_type ∧ locs = building.locations ∧
      rcp = (production_params s building optimized).1 ∧
      pr = (production_params s building optimized).2.1 ∧
      wf = (production_params s building optimized).2.2.1 ∧
      mods = (production_params s building optimized).2.2.2.map (fun m => m.name) ∧
      ¬ rcp.get_output_rate g ≤ 0 ∧
      cnt = r / rcp.get_output_rate g ∧
      tw = (wf : ℚ) * cnt ∧
      ins = rcp.inputs.map (fun p => (p.1, p.2 * cnt)) ∧
      calculate_sub_chains
        (fun g2 r2 => calculate_production_chain s optimized fuel g2 r2) ins = some subs := by
  simp only [calculate_production_chain] at h
  split at h
  · simp at h
  · next good hgood =>
    split at h
    · simp at h
    · next hraw =>
      split at h
      · simp at h
      · next building hb =>
        split at h
        · simp at h
        · next hrate =>
          split at h
          · exact absurd h (by simp)
          · next sub_chains hsub =>
            simp only [Option.some.injEq, ChainNode.node.injEq] at h
            obtain ⟨h1, h2, h3, h4, h5, h6, h7, h8, h9, h10, h11, h12, h13⟩ := h
            subst h1; subst h2; subst h3; subst h4; subst h5; subst h6
            subst h7; subst h8; subst h9; subst h10; subst h11; subst h12; subst h13
            exact ⟨rfl, rfl, good, building, hgood, Bool.not_eq_true _ ▸ hraw, hb,
              rfl, rfl, rfl, rfl, rfl, rfl, rfl, hrate, rfl, rfl, rfl, hsub⟩

theorem apply_modifiers_workforce_fold (building : ProductionBuilding) :
    ∀ (modifiers : List Modifier) (st : Dict ℚ × Dict ℚ × ℚ × ℤ),
      (modifiers.foldl (apply_one_modifier building) st).2.2.2
        = workforce_fold st.2.2.2 modifiers := by
  intro modifiers
  induction modifiers with
  | nil => intro st; rfl
  | cons m rest ih =>
    intro st
    rw [List.foldl_cons, ih]
    rfl

/-- Claim C2 counterexample: a modifier with two ExtraOutput effects for the
same good keeps only the last amount (2), not the sum (3). -/
theorem extra_output_not_summed :
    dget "X" double_output_modifier.get_extra_outputs = some 2
    ∧ spec_extra_output_sum double_output_modifier "X" = 3
    ∧ dget "X" double_output_modifier.get_extra_outputs
        ≠ some (spec_extra_output_sum double_output_modifier "X") := by
  refine ⟨rfl, rfl, ?_⟩
  decide

/-- Claim C2 amended: Productivity and WorkforceReduction values accumulate by
summation, but the per-good ExtraOutput aggregate is the amount of the most
recently listed eligible effect (positive amount, non-empty good name) naming
that good — later effects overwrite earlier ones instead of summing. -/
theorem effect_aggregation (m : Modifier) :
    m.get_productivity_bonus
      = ((m.effects.filter (fun e => e.type = "PRODUCTIVITY")).map Effect.value).sum
    ∧ m.get_workforce_reduction
      = ((m.effects.filter (fun e => e.type = "WORKFORCE_REDUCTION")).map Effect.value).sum
    ∧ ∀ g : String, g ≠ "" →
        dget g m.get_extra_outputs
          = match m.effects.reverse.find?
              (fun e => e.type = "EXTRA_OUTPUT" ∧ e.good = g ∧ 0 < e.amount_per_cycle) with
            | some e => some e.amount_per_cycle
            | none => none := by
  refine ⟨?_, ?_, ?_⟩
  · simpa [Modifier.get_productivity_bonus] using
      foldl_add_if_eq_sum "PRODUCTIVITY" m.effects 0
  · simpa [Modifier.get_workforce_reduction] using
      foldl_add_if_eq_sum "WORKFORCE_REDUCTION" m.effects 0
  · intro g hg
    simpa [Modifier.get_extra_outputs, dget] using
      extra_outputs_foldl_dget g hg m.effects []

/-- Claim C2 amended, witness at the double-output modifier and good X. -/
theorem effect_aggregation_witness :
    ("X" : String) ≠ ""
    ∧ dget "X" double_output_modifier.get_extra_outputs
        = match double_output_modifier.effects.reverse.find?
            (fun e => e.type = "EXTRA_OUTPUT" ∧ e.good = "X" ∧ 0 < e.amount_per_cycle) with
          | some e => some e.amount_per_cycle
          | none => none :=
  ⟨by decide, (effect_aggregation double_output_modifier).2.2 "X" (by decide)⟩

/-- Claim C3: for a facility with positive cycle time, the extra-output step
adds exactly amountPerCycle * (60 / cycleTimeSeconds) / 60 to the outputs
entry of that good, creating the entry if absent. -/
theorem extra_output_two_step_division
    (building : ProductionBuilding) (outs : Dict ℚ) (g : String) (a : ℤ)
    (h : 0 < building.cycle_time_seconds) :
    apply_extra_output building outs (g, a)
      = dinsert g
          (dgetD g 0 outs + (a : ℚ) * (60 / (building.cycle_time_seconds : ℚ)) / 60) outs
    ∧ dget g (apply_extra_output building outs (g, a))
      = some (dgetD g 0 outs + (a : ℚ) * (60 / (building.cycle_time_seconds : ℚ)) / 60) := by
  have hc : ¬ building.cycle_time_seconds ≤ 0 := not_le.mpr h
  constructor
  · simp [apply_extra_output, ProductionBuilding.get_cycles_per_minute, hc]
  · simp [apply_extra_output, ProductionBuilding.get_cycles_per_minute, hc,
      dget_dinsert_self]

/-- Claim C3 witness at a building with cycle time 30 seconds. -/
theorem extra_output_two_step_division_witness :
    (0 < millA.cycle_time_seconds)
    ∧ (apply_extra_output millA [] ("X", 1)
        = dinsert "X"
            (dgetD "X" 0 [] + ((1 : ℤ) : ℚ) * (60 / (millA.cycle_time_seconds : ℚ)) / 60) []
      ∧ dget "X" (apply_extra_output millA [] ("X", 1))
        = some (dgetD "X" 0 [] + ((1 : ℤ) : ℚ) * (60 / (millA.cycle_time_seconds : ℚ)) / 60)) :=
  ⟨by decide, extra_output_two_step_division millA [] "X" 1 (by decide)⟩

/-- Claim C4 amended: the effective workforce is the left fold that, after
each modifier, truncates workforce * (1 - reduction) toward zero (Python
int()), which agrees with floor only when the product is non-negative. -/
theorem workforce_sequential_truncation (building : ProductionBuilding)
    (modifiers : List Modifier) :
    (apply_modifiers building modifiers).2.2
      = workforce_fold building.get_base_workforce modifiers :=
  apply_modifiers_workforce_fold building modifiers
    (building.base_recipe.inputs, building.base_recipe.outputs, 1,
      building.get_base_workforce)

/-- Claim C4 counterexample: a single modifier reducing workforce by 150%
drives the intermediate product to -3/2, where Python int() truncation gives
-1 while the floor the claim states gives -2. -/
theorem workforce_floor_counterexample :
    (apply_modifiers triple_crew [heavy_reduction]).2.2 = -1
    ∧ spec_floor_workforce_fold triple_crew.get_base_workforce [heavy_reduction] = -2
    ∧ (apply_modifiers triple_crew [heavy_reduction]).2.2
        ≠ spec_floor_workforce_fold triple_crew.get_base_workforce [heavy_reduction] := by
  have hred : heavy_reduction.get_workforce_reduction = 3 / 2 := by
    simp [Modifier.get_workforce_reduction, heavy_reduction]
  have harg : ((triple_crew.get_base_workforce : ℚ)
      * (1 - heavy_reduction.get_workforce_reduction)) = -(3 / 2) := by
    rw [hred]
    norm_num [triple_crew, ProductionBuilding.get_base_workforce]
  have hceil : ⌈(-(3 / 2) : ℚ)⌉ = -1 := by
    rw [Int.ceil_eq_iff]
    constructor <;> norm_num
  have hfloor : ⌊(-(3 / 2) : ℚ)⌋ = -2 := by
    rw [Int.floor_eq_iff]
    constructor <;> norm_num
  have h1 : (apply_modifiers triple_crew [heavy_reduction]).2.2 = -1 := by
    have hw := apply_modifiers_workforce_fold triple_crew [heavy_reduction]
      (triple_crew.base_recipe.inputs, triple_crew.base_recipe.outputs, 1,
        triple_crew.get_base_workforce)
    rw [show (apply_modifiers triple_crew [heavy_reduction]).2.2
        = workforce_fold triple_crew.get_base_workforce [heavy_reduction] from hw]
    show int_trunc ((triple_crew.get_base_workforce : ℚ)
      * (1 - heavy_reduction.get_workforce_reduction)) = -1
    rw [int_trunc, harg, if_pos (show (-(3 / 2) : ℚ) < 0 by norm_num), hceil]
  have h2 : spec_floor_workforce_fold triple_crew.get_base_workforce [heavy_reduction] = -2 := by
    show ⌊(triple_crew.get_base_workforce : ℚ)
      * (1 - heavy_reduction.get_workforce_reduction)⌋ = -2
    rw [harg, hfloor]
  exact ⟨h1, h2, by rw [h1, h2]; decide⟩

/-- Claim C9: with a non-positive cycle time, cycles-per-minute is 0 and every
extra-output application adds exactly 0 to the entry of its good. -/
theorem zero_cycle_time_guard (building : ProductionBuilding)
    (h : building.cycle_time_seconds ≤ 0) :
    building.get_cycles_per_minute = 0
    ∧ ∀ (outs : Dict ℚ) (g : String) (a : ℤ),
        ((a : ℚ) * building.get_cycles_per_minute) / 60 = 0
        ∧ dget g (apply_extra_output building outs (g, a)) = some (dgetD g 0 outs) := by
  have h0 : building.get_cycles_per_minute = 0 := by
    simp [ProductionBuilding.get_cycles_per_minute, h]
  refine ⟨h0, fun outs g a => ⟨by simp [h0], ?_⟩⟩
  simp [apply_extra_output, h0, dget_dinsert_self]

/-- Claim C6: the modifier selection agrees with the fixed-priority
description (Old World / Master Baker, else enhanceable / Electricity, else
Automation) and always returns at most one modifier. -/
theorem selection_policy_priority (s : SystemCalculator) (building : ProductionBuilding) :
    find_best_modifiers_for s building = spec_selection_policy s building
    ∧ (find_best_modifiers_for s building).length ≤ 1 := by
  unfold find_best_modifiers_for spec_selection_policy
  by_cases how : building.tags.contains "Old World"
  · simp only [how, if_true]
    cases hmb : (s.all_modifiers.filter (fun m => m.can_apply_to building.tags)).find?
        (fun m => m.name == "Master Baker") with
    | some mb => simp [hmb]
    | none =>
      simp only [hmb]
      cases hauto : (s.all_modifiers.filter (fun m => m.can_apply_to building.tags)).find?
          (fun m => m.name == "Automation") with
      | some am => simp [hauto]
      | none => simp [hauto]
  · simp only [how, if_false, Bool.false_eq_true]
    by_cases hel : building.is_electrifiable
    · cases hele : (s.all_modifiers.filter (fun m => m.can_apply_to building.tags)).find?
          (fun m => m.name == "Electricity") with
      | some em => simp [hele, hel]
      | none =>
        simp only [hele, hel]
        cases hauto : (s.all_modifiers.filter (fun m => m.can_apply_to building.tags)).find?
            (fun m => m.name == "Automation") with
        | some am => simp [hauto, hel]
        | none => simp [hauto, hel]
    · cases hele : (s.all_modifiers.filter (fun m => m.can_apply_to building.tags)).find?
          (fun m => m.name == "Electricity") with
      | some em =>
        simp only [hele, hel]
        cases hauto : (s.all_modifiers.filter (fun m => m.can_apply_to building.tags)).find?
            (fun m => m.name == "Automation") with
        | some am => simp [hauto, hel]
        | none => simp [hauto, hel]
      | none =>
        simp only [hele, hel]
        cases hauto : (s.all_modifiers.filter (fun m => m.can_apply_to building.tags)).find?
            (fun m => m.name == "Automation") with
        | some am => simp [hauto, hel]
        | none => simp [hauto, hel]

/-- Claim C1 (behaviour of the code at a cyclic catalog): on a catalog whose
recipe graph cycles at good A, the resolver never returns any value — at
every recursion depth it exhausts its fuel instead of terminating with a
CyclicDependency error node, which the code does not implement. -/
theorem cyclic_catalog_diverges :
    ∀ (fuel : Nat) (r : ℚ),
      calculate_production_chain cyclic_system false fuel "A" r = none := by
  intro fuel
  induction fuel with
  | zero => intro r; rfl
  | succ n ih =>
    intro r
    have hstep : calculate_production_chain cyclic_system false (n+1) "A" r
        = match calculate_sub_chains
            (fun g2 r2 => calculate_production_chain cyclic_system false n g2 r2)
            [("A", 1 * (r / 1))] with
          | none => none
          | some subs =>
            some (.node "A" r "Mill A" (r / 1) 1 10 "Workers" (((10 : ℤ) : ℚ) * (r / 1))
              ["Old World"] [] millA.base_recipe [("A", 1 * (r / 1))] subs) := rfl
    have hsub : calculate_sub_chains
        (fun g2 r2 => calculate_production_chain cyclic_system false n g2 r2)
        [("A", 1 * (r / 1))] = none := by
      simp [calculate_sub_chains, ih]
    rw [hstep, hsub]

/-- Claim C7: whenever a non-raw good has a producer with positive effective
output rate and every recursive input call returns a value (possibly an error
node), the parent node is assembled normally and each sub-chain slot holds
exactly its own recursive result — a failing subtree aborts neither its
siblings nor the parent, and all errors are values. -/
theorem error_localization
    (s : SystemCalculator) (optimized : Bool) (fuel : Nat) (g : String) (r : ℚ)
    (good : Good) (building : ProductionBuilding)
    (h1 : dget g s.all_goods = some good)
    (h2 : good.is_raw = false)
    (h3 : find_building_for_good s g = some building)
    (h4 : ¬ (production_params s building optimized).1.get_output_rate g ≤ 0)
    (h5 : ∀ p ∈ scaled_inputs s building optimized g r,
        ∃ c, calculate_production_chain s optimized fuel p.1 p.2 = some c) :
    ∃ subs,
      List.Forall₂
        (fun p q => q.1 = p.1
          ∧ calculate_production_chain s optimized fuel p.1 p.2 = some q.2)
        (scaled_inputs s building optimized g r) subs
      ∧ calculate_production_chain s optimized (fuel+1) g r
        = some (.node g r building.name
            (r / (production_params s building optimized).1.get_output_rate g)
            (production_params s building optimized).2.1
            (production_params s building optimized).2.2.1
            building.workforce_type
            (((production_params s building optimized).2.2.1 : ℚ)
              * (r / (production_params s building optimized).1.get_output_rate g))
            building.locations
            ((production_params s building optimized).2.2.2.map (fun m => m.name))
            (production_params s building optimized).1
            (scaled_inputs s building optimized g r) subs) := by
  obtain ⟨subs, hsubs⟩ := calculate_sub_chains_total _ _ h5
  refine ⟨subs, calculate_sub_chains_forall₂ _ _ _ hsubs, ?_⟩
  simp only [scaled_inputs] at hsubs ⊢
  simp only [calculate_production_chain, h1, h2, h3, hsubs, Bool.false_eq_true, if_false]
  rw [if_neg h4]

/-- Claim C7 witness: on demo_system, resolving B succeeds while its input C
fails with an UnknownGood error stored in its own slot. -/
theorem error_localization_witness :
    ∃ subs,
      List.Forall₂
        (fun p q => q.1 = p.1
          ∧ calculate_production_chain demo_system false 1 p.1 p.2 = some q.2)
        (scaled_inputs demo_system workshopB false "B" 1) subs
      ∧ calculate_production_chain demo_system false 2 "B" 1
        = some (.node "B" 1 workshopB.name
            (1 / (production_params demo_system workshopB false).1.get_output_rate "B")
            (production_params demo_system workshopB false).2.1
            (production_params demo_system workshopB false).2.2.1
            workshopB.workforce_type
            (((production_params demo_system workshopB false).2.2.1 : ℚ)
              * (1 / (production_params demo_system workshopB false).1.get_output_rate "B"))
            workshopB.locations
            ((production_params demo_system workshopB false).2.2.2.map (fun m => m.name))
            (production_params demo_system workshopB false).1
            (scaled_inputs demo_system workshopB false "B" 1) subs) :=
  error_localization demo_system false 1 "B" 1 goodB workshopB rfl rfl rfl
    (by decide)
    (by
      intro p hp
      rw [show scaled_inputs demo_system workshopB false "B" 1
          = [("C", 1 * ((1 : ℚ) / 1))] from rfl] at hp
      simp only [List.mem_singleton] at hp
      subst hp
      exact ⟨_, rfl⟩)

/-- Claim C5: every resolved non-raw node has facilityCount =
targetRate / outputRate (real-valued), facilityCount * outputRate =
targetRate, required input rates exactly the effective recipe input rates
scaled by the facility count, and each such rate is the target rate passed to
the recursive call stored in that slot. -/
theorem node_rate_algebra
    (s : SystemCalculator) (optimized : Bool) (fuel : Nat) (g : String) (r : ℚ)
    (gn : String) (tr : ℚ) (bn : String) (cnt pr : ℚ) (wf : ℤ) (wt : String)
    (tw : ℚ) (locs mods : List String) (rcp : Recipe) (ins : List (String × ℚ))
    (subs : List (String × ChainNode))
    (h : calculate_production_chain s optimized (fuel+1) g r
      = some (.node gn tr bn cnt pr wf wt tw locs mods rcp ins subs)) :
    cnt = tr / rcp.get_output_rate gn
    ∧ cnt * rcp.get_output_rate gn = tr
    ∧ ins = rcp.inputs.map (fun p => (p.1, p.2 * cnt))
    ∧ List.Forall₂
        (fun p q => q.1 = p.1
          ∧ calculate_production_chain s optimized fuel p.1 p.2 = some q.2)
        ins subs := by
  obtain ⟨hg, hr, good, building, hdget, hraw, hfind, hbn, hwt, hlocs, hrcp, hpr,
    hwf, hmods, hrate, hcnt, htw, hins, hsub⟩ :=
    calc_node_inversion s optimized fuel g r gn tr bn cnt pr wf wt tw locs mods
      rcp ins subs h
  subst hg
  subst hr
  refine ⟨hcnt, ?_, hins, calculate_sub_chains_forall₂ _ _ _ hsub⟩
  rw [hcnt]
  exact div_mul_cancel₀ tr (ne_of_gt (lt_of_not_le hrate))

/-- Claim C5 witness on demo_system at good B, rate 1. -/
theorem node_rate_algebra_witness :
    (1 / 1 : ℚ) = 1 / workshopB.base_recipe.get_output_rate "B"
    ∧ (1 / 1 : ℚ) * workshopB.base_recipe.get_output_rate "B" = 1
    ∧ [("C", 1 * (1 / 1 : ℚ))]
        = workshopB.base_recipe.inputs.map (fun p => (p.1, p.2 * (1 / 1)))
    ∧ List.Forall₂
        (fun p q => q.1 = p.1
          ∧ calculate_production_chain demo_system false 1 p.1 p.2 = some q.2)
        [("C", 1 * (1 / 1 : ℚ))]
        [("C", ChainNode.error ("Good " ++ "C" ++ " not found in system"))] :=
  node_rate_algebra demo_system false 1 "B" 1 "B" 1 "Workshop" (1 / 1) 1 10
    "Workers" (((10 : ℤ) : ℚ) * (1 / 1)) ["Old World"] [] workshopB.base_recipe
    [("C", 1 * (1 / 1))]
    [("C", ChainNode.error ("Good " ++ "C" ++ " not found in system"))] rfl

/-- Claim C8: in base mode every node of the returned tree — raw and non-raw
alike — has productivity 1 and no applied modifiers, and every production
node records the producing building's name and base workforce. -/
theorem base_mode_invariant :
    ∀ (fuel : Nat) (s : SystemCalculator) (g : String) (r : ℚ)
      (root d : ChainNode),
      calculate_production_chain s false fuel g r = some root →
      InTree d root → base_node_ok s d := by
  intro fuel
  induction fuel with
  | zero =>
    intro s g r root d h _
    exact absurd h (by simp [calculate_production_chain])
  | succ n ih =>
    intro s g r root d h hin
    simp only [calculate_production_chain] at h
    split at h
    · injection h with h2
      subst h2
      cases hin with
      | refl => trivial
      | @step g2 _ mid _ hmem hsub2 => simp [sub_chains_of] at hmem
    · next good hgood =>
      split at h
      · injection h with h2
        subst h2
        cases hin with
        | refl => exact ⟨rfl, rfl⟩
        | @step g2 _ mid _ hmem hsub2 => simp [sub_chains_of] at hmem
      · next hraw =>
        split at h
        · injection h with h2
          subst h2
          cases hin with
          | refl => trivial
          | @step g2 _ mid _ hmem hsub2 => simp [sub_chains_of] at hmem
        · next building hb =>
          split at h
          · injection h with h2
            subst h2
            cases hin with
            | refl => trivial
            | @step g2 _ mid _ hmem hsub2 => simp [sub_chains_of] at hmem
          · next hrate =>
            split at h
            · exact absurd h (by simp)
            · next sub_chains hsub =>
              injection h with h2
              subst h2
              cases hin with
              | refl => exact ⟨rfl, rfl, building, hb, rfl, rfl⟩
              | @step g2 _ mid _ hmem hsub2 =>
                simp only [sub_chains_of] at hmem
                obtain ⟨r2, hrl, hfr⟩ :=
                  calculate_sub_chains_mem _ _ _ hsub g2 mid hmem
                exact ih s g2 r2 mid d hfr hsub2

/-- Claim C8 witness: the invariant holds at the root of the base-mode tree
for B on demo_system. -/
theorem base_mode_invariant_witness : base_node_ok demo_system demo_node :=
  base_mode_invariant 2 demo_system "B" 1 demo_node demo_node rfl
    (InTree.refl demo_node)

theorem find_building_first (s : SystemCalculator) (g : String)
    (l1 : Dict ProductionBuilding) (p : String × ProductionBuilding)
    (l2 : Dict ProductionBuilding)
    (hsplit : s.all_buildings = l1 ++ p :: l2)
    (hbefore : ∀ q ∈ l1, q.2.get_base_output_rate g ≤ 0)
    (hp : 0 < p.2.get_base_output_rate g) :
    find_building_for_good s g = some p.2 := by
  unfold find_building_for_good
  rw [hsplit]
  clear hsplit
  revert hbefore
  induction l1 with
  | nil =>
    intro _
    simp [List.find?_cons, hp]
  | cons q rest ih =>
    intro hbefore
    have hq : ¬ 0 < q.2.get_base_output_rate g :=
      not_lt.mpr (hbefore q (List.mem_cons_self q rest))
    simpa [List.cons_append, List.find?_cons, hq] using
      ih (fun q2 hq2 => hbefore q2 (List.mem_cons_of_mem q hq2))

/-- Claim C10: registering a building under an already-registered name
replaces the earlier definition in place (key list unchanged, uniqueness
preserved, other entries untouched), a fresh name is appended at the end, and
producer lookup returns the first building in insertion order whose base
recipe outputs the requested good at a positive rate. -/
theorem registry_replacement_and_lookup
    (s : SystemCalculator) (b : ProductionBuilding) (g : String)
    (l1 : Dict ProductionBuilding) (p : String × ProductionBuilding)
    (l2 : Dict ProductionBuilding)
    (hnd : (dkeys s.all_buildings).Nodup)
    (hsplit : s.all_buildings = l1 ++ p :: l2)
    (hbefore : ∀ q ∈ l1, q.2.get_base_output_rate g ≤ 0)
    (hp : 0 < p.2.get_base_output_rate g) :
    (dkeys (add_building s b).all_buildings).Nodup
    ∧ dget b.name (add_building s b).all_buildings = some b
    ∧ (∀ k, k ≠ b.name →
        dget k (add_building s b).all_buildings = dget k s.all_buildings)
    ∧ (b.name ∈ dkeys s.all_buildings →
        dkeys (add_building s b).all_buildings = dkeys s.all_buildings)
    ∧ (b.name ∉ dkeys s.all_buildings →
        dkeys (add_building s b).all_buildings = dkeys s.all_buildings ++ [b.name])
    ∧ find_building_for_good s g = some p.2 := by
  refine ⟨dkeys_dinsert_nodup _ _ _ hnd, dget_dinsert_self _ _ _,
    fun k hk => dget_dinsert_ne _ _ _ _ (Ne.symm hk), ?_, ?_,
    find_building_first s g l1 p l2 hsplit hbefore hp⟩
  · intro hmem
    have hkeys := dkeys_dinsert b.name b s.all_buildings
    rw [if_pos hmem] at hkeys
    exact hkeys
  · intro hmem
    have hkeys := dkeys_dinsert b.name b s.all_buildings
    rw [if_neg hmem] at hkeys
    exact hkeys

/-- Claim C10 witness: re-registering Old Mill replaces it in place, and the
producer lookup for B skips Old Mill and returns the Sawmill. -/
theorem registry_replacement_and_lookup_witness :
    (dkeys (add_building registry_system old_mill_v2).all_buildings).Nodup
    ∧ dget old_mill_v2.name (add_building registry_system old_mill_v2).all_buildings
        = some old_mill_v2
    ∧ (∀ k, k ≠ old_mill_v2.name →
        dget k (add_building registry_system old_mill_v2).all_buildings
          = dget k registry_system.all_buildings)
    ∧ (old_mill_v2.name ∈ dkeys registry_system.all_buildings →
        dkeys (add_building registry_system old_mill_v2).all_buildings
          = dkeys registry_system.all_buildings)
    ∧ (old_mill_v2.name ∉ dkeys registry_system.all_buildings →
        dkeys (add_building registry_system old_mill_v2).all_buildings
          = dkeys registry_system.all_buildings ++ [old_mill_v2.name])
    ∧ find_building_for_good registry_system "B" = some ("Sawmill", sawmill).2 :=
  registry_replacement_and_lookup registry_system old_mill_v2 "B"
    [("Old Mill", old_mill)] ("Sawmill", sawmill) []
    (by decide) rfl
    (by
      intro q hq
      rw [List.mem_singleton] at hq
      subst hq
      decide)
    (by decide)

/-- Claim C9 witness at a building with cycle time 0. -/
theorem zero_cycle_time_guard_witness :
    (stalled_mill.cycle_time_seconds ≤ 0)
    ∧ stalled_mill.get_cycles_per_minute = 0
    ∧ (((2 : ℤ) : ℚ) * stalled_mill.get_cycles_per_minute) / 60 = 0
    ∧ dget "X" (apply_extra_output stalled_mill [("X", 5)] ("X", 2))
        = some (dgetD "X" 0 [("X", 5)]) :=
  ⟨by decide, (zero_cycle_time_guard stalled_mill (by decide)).1,
    ((zero_cycle_time_guard stalled_mill (by decide)).2 [("X", 5)] "X" 2).1,
    ((zero_cycle_time_guard stalled_mill (by decide)).2 [("X", 5)] "X" 2).2⟩

end Anno
